import Mathlib

/-!
Shallow embedding of `src/rp_handler.py` (runpod-worker-comfyui), a serverless
worker that validates a job payload, optionally patches an init image into the
workflow graph, submits the workflow to a local ComfyUI engine over HTTP,
polls the history endpoint for completion, and returns base64-encoded output
images.

JSON values are modelled by `JValue`; Python dicts become association lists
(preserving insertion order, as CPython dicts do).  HTTP interaction with the
engine is modelled by an `Engine` record supplying the decoded JSON responses
(the engine is assumed to answer with decodable JSON bodies; transport-level
JSON decode failures are outside this model).  Exceptions are modelled with
`Except String`, carrying the Python `str(e)` of the exception, since the
handler converts a caught exception `e` into `\x7b'error': str(e)\x7d`.
-/

/-- A decoded JSON value (what `response.json()` yields in the source). -/
inductive JValue where
  | str : String → JValue
  | num : Int → JValue
  | bool : Bool → JValue
  | null : JValue
  | list : List JValue → JValue
  | obj : List (String × JValue) → JValue

namespace JValue

mutual

/-- Decidable equality on `JValue` (the nested inductive blocks deriving). -/
def decEq : (a b : JValue) → Decidable (a = b)
  | .str a, .str b =>
    if h : a = b then isTrue (by rw [h]) else isFalse (by simpa using h)
  | .num a, .num b =>
    if h : a = b then isTrue (by rw [h]) else isFalse (by simpa using h)
  | .bool a, .bool b =>
    if h : a = b then isTrue (by rw [h]) else isFalse (by simpa using h)
  | .null, .null => isTrue rfl
  | .list a, .list b =>
    match decEqList a b with
    | isTrue h => isTrue (by rw [h])
    | isFalse h => isFalse (by simpa using h)
  | .obj a, .obj b =>
    match decEqObj a b with
    | isTrue h => isTrue (by rw [h])
    | isFalse h => isFalse (by simpa using h)
  | .str _, .num _ => isFalse nofun
  | .str _, .bool _ => isFalse nofun
  | .str _, .null => isFalse nofun
  | .str _, .list _ => isFalse nofun
  | .str _, .obj _ => isFalse nofun
  | .num _, .str _ => isFalse nofun
  | .num _, .bool _ => isFalse nofun
  | .num _, .null => isFalse nofun
  | .num _, .list _ => isFalse nofun
  | .num _, .obj _ => isFalse nofun
  | .bool _, .str _ => isFalse nofun
  | .bool _, .num _ => isFalse nofun
  | .bool _, .null => isFalse nofun
  | .bool _, .list _ => isFalse nofun
  | .bool _, .obj _ => isFalse nofun
  | .null, .str _ => isFalse nofun
  | .null, .num _ => isFalse nofun
  | .null, .bool _ => isFalse nofun
  | .null, .list _ => isFalse nofun
  | .null, .obj _ => isFalse nofun
  | .list _, .str _ => isFalse nofun
  | .list _, .num _ => isFalse nofun
  | .list _, .bool _ => isFalse nofun
  | .list _, .null => isFalse nofun
  | .list _, .obj _ => isFalse nofun
  | .obj _, .str _ => isFalse nofun
  | .obj _, .num _ => isFalse nofun
  | .obj _, .bool _ => isFalse nofun
  | .obj _, .null => isFalse nofun
  | .obj _, .list _ => isFalse nofun

/-- Decidable equality on lists of `JValue`. -/
def decEqList : (a b : List JValue) → Decidable (a = b)
  | [], [] => isTrue rfl
  | [], _ :: _ => isFalse nofun
  | _ :: _, [] => isFalse nofun
  | x :: xs, y :: ys =>
    match decEq x y, decEqList xs ys with
    | isTrue h1, isTrue h2 => isTrue (by rw [h1, h2])
    | isFalse h1, _ => isFalse (by simp [h1])
    | _, isFalse h2 => isFalse (by simp [h2])

/-- Decidable equality on assoc lists of `JValue`. -/
def decEqObj : (a b : List (String × JValue)) → Decidable (a = b)
  | [], [] => isTrue rfl
  | [], _ :: _ => isFalse nofun
  | _ :: _, [] => isFalse nofun
  | (k1, v1) :: xs, (k2, v2) :: ys =>
    match String.decEq k1 k2, decEq v1 v2, decEqObj xs ys with
    | isTrue h0, isTrue h1, isTrue h2 => isTrue (by rw [h0, h1, h2])
    | isFalse h0, _, _ => isFalse (by simp [h0])
    | _, isFalse h1, _ => isFalse (by simp [h1])
    | _, _, isFalse h2 => isFalse (by simp [h2])

end

instance : DecidableEq JValue := decEq

/-- Membership test `k in d` for a Python dict modelled as an assoc list. -/
def hasKey (kvs : List (String × JValue)) (k : String) : Bool :=
  kvs.any (fun p => p.1 == k)

/-- Dict lookup `d[k]` / `d.get(k)` on an assoc list (first binding wins;
CPython dicts have unique keys, so assoc lists built from them do too). -/
def lookup (kvs : List (String × JValue)) (k : String) : Option JValue :=
  (kvs.find? (fun p => p.1 == k)).map (fun p => p.2)

/-- Dict assignment `d[k] = v`: an existing key keeps its position, a new key
is appended at the end (CPython dict insertion-order semantics). -/
def setKey (kvs : List (String × JValue)) (k : String) (v : JValue) :
    List (String × JValue) :=
  if hasKey kvs k then
    kvs.map (fun p => if p.1 == k then (k, v) else p)
  else kvs ++ [(k, v)]

/-- Python truthiness (`bool(v)`) of a decoded JSON value. -/
def truthy : JValue → Bool
  | .str s => !(s == "")
  | .num n => !(n == 0)
  | .bool b => b
  | .null => false
  | .list l => !l.isEmpty
  | .obj kvs => !kvs.isEmpty

/-- Python `len(v)`; raises `TypeError` on unsized values. -/
def pyLen : JValue → Except String Nat
  | .obj kvs => .ok kvs.length
  | .list l => .ok l.length
  | .str s => .ok s.length
  | _ => .error "object of type has no len()"

/-- `isinstance(v, str)`. -/
def isStr : JValue → Bool
  | .str _ => true
  | _ => false

/-- Whether a decoded JSON value is a dict. -/
def isObj : JValue → Bool
  | .obj _ => true
  | _ => false

mutual

/-- Python `repr` of a decoded JSON value (used by `str` on containers). -/
def pyRepr : JValue → String
  | .str s => "\x27" ++ s ++ "\x27"
  | .num n => toString n
  | .bool true => "True"
  | .bool false => "False"
  | .null => "None"
  | .list l => "[" ++ pyReprList l ++ "]"
  | .obj kvs => "\x7b" ++ pyReprObj kvs ++ "\x7d"

/-- Comma-separated reprs of a list's elements. -/
def pyReprList : List JValue → String
  | [] => ""
  | [v] => pyRepr v
  | v :: rest => pyRepr v ++ ", " ++ pyReprList rest

/-- Comma-separated `key: value` reprs of a dict's entries. -/
def pyReprObj : List (String × JValue) → String
  | [] => ""
  | [(k, v)] => "\x27" ++ k ++ "\x27: " ++ pyRepr v
  | (k, v) :: rest => "\x27" ++ k ++ "\x27: " ++ pyRepr v ++ ", " ++ pyReprObj rest

end

/-- Python `str(v)`, as an f-string would render the value. -/
def pyStr : JValue → String
  | .str s => s
  | .num n => toString n
  | .bool true => "True"
  | .bool false => "False"
  | .null => "None"
  | .list l => pyRepr (.list l)
  | .obj kvs => pyRepr (.obj kvs)

/-- The message of Python `KeyError(k)` as rendered by `str`: the repr of the
missing key. -/
def keyErrorStr (k : String) : String := "\x27" ++ k ++ "\x27"

end JValue

/-- Decidable equality for `Except`, used to evaluate the embedded
exception-carrying functions at concrete inputs. -/
instance {ε α : Type} [DecidableEq ε] [DecidableEq α] :
    DecidableEq (Except ε α) := fun a b =>
  match a, b with
  | .error x, .error y =>
    if h : x = y then isTrue (by rw [h]) else isFalse (by simpa using h)
  | .ok x, .ok y =>
    if h : x = y then isTrue (by rw [h]) else isFalse (by simpa using h)
  | .error _, .ok _ => isFalse nofun
  | .ok _, .error _ => isFalse nofun

open JValue

/-! ### Base64 (the `base64` standard-library calls in the source)

`save_init_image` writes `base64.b64decode(base64_str)` to disk and the
output loop returns `base64.b64encode(file_bytes).decode('utf-8')`.  Bytes
are modelled as `List Nat` (each < 256). -/

/-- The standard base64 alphabet. -/
def b64alphabet : List Char :=
  "ABCDEFGHIJKLMNOPQRSTUVWXYZabcdefghijklmnopqrstuvwxyz0123456789+/".toList

/-- Index of a character in the base64 alphabet, if any. -/
def b64index (c : Char) : Option Nat :=
  b64alphabet.indexOf? c

/-- Turn a list of 6-bit groups into bytes (complete groups of four give
three bytes; a trailing pair or triple gives one or two bytes). -/
def b64groupsToBytes : List Nat → List Nat
  | a :: b :: c :: d :: rest =>
    (a * 4 + b / 16) :: ((b % 16) * 16 + c / 4) :: ((c % 4) * 64 + d) ::
      b64groupsToBytes rest
  | [a, b] => [a * 4 + b / 16]
  | [a, b, c] => [a * 4 + b / 16, (b % 16) * 16 + c / 4]
  | _ => []

/-- Models `base64.b64decode` with its default lenient mode: characters
outside the alphabet (padding included) are discarded, and `binascii.Error`
is raised when the number of data characters is congruent to 1 mod 4. -/
def b64decode (s : String) : Except String (List Nat) :=
  let data := s.toList.filterMap b64index
  if data.length % 4 == 1 then
    .error "Invalid base64-encoded string: number of data characters cannot be 1 more than a multiple of 4"
  else .ok (b64groupsToBytes data)

/-- The base64 character for a 6-bit value. -/
def b64char (n : Nat) : Char := b64alphabet.getD n 'A'

/-- Models `base64.b64encode(bytes).decode('utf-8')`: standard alphabet with
`=` padding. -/
def b64encode : List Nat → String
  | a :: b :: c :: rest =>
    String.mk [b64char (a / 4), b64char ((a % 4) * 16 + b / 16),
      b64char ((b % 16) * 4 + c / 64), b64char (c % 64)] ++ b64encode rest
  | [a, b] =>
    String.mk [b64char (a / 4), b64char ((a % 4) * 16 + b / 16),
      b64char ((b % 16) * 4), '=']
  | [a] => String.mk [b64char (a / 4), b64char ((a % 4) * 16), '=', '=']
  | [] => ""

/-- Models Python `str.lower()` (ASCII case folding; `class_type` names are
ASCII).  Written over the character list so proofs can evaluate it. -/
def pyLower (s : String) : String :=
  String.mk (s.toList.map (fun c =>
    if 'A' ≤ c ∧ c ≤ 'Z' then Char.ofNat (c.toNat + 32) else c))

/-- Models Python `s.startswith(p)`, over character lists. -/
def pyStartsWith (s p : String) : Bool :=
  p.toList.isPrefixOf s.toList

/-! ### Constants and ComfyUI helper functions from the source -/

/-- `VOLUME_MOUNT_PATH = '/runpod-volume'` (rp_handler.py line 14). -/
def VOLUME_MOUNT_PATH : String := "/runpod-volume"

/-- The path `save_init_image` writes to and returns:
`os.path.join(f"\x7bVOLUME_MOUNT_PATH\x7d/ComfyUI/input", "init.png")`
(rp_handler.py lines 65-72, with the default filename). -/
def init_image_path : String := VOLUME_MOUNT_PATH ++ "/ComfyUI/input/init.png"

/-- Models `get_filenames(output)` (rp_handler.py lines 57-62): scan the
outputs dict in stored order; on the first entry whose value contains the
key `images` bound to a list, return that list (empty or not); skip entries
whose value lacks an `images` list; raise `TypeError` where Python would
(`'images' in value` on an unsized/unhashable-incompatible value, or
indexing a string/list with the string key). -/
def get_filenames : List (String × JValue) → Except String (List JValue)
  | [] => .ok []
  | (_, v) :: rest =>
    match v with
    | .obj kvs =>
      match lookup kvs "images" with
      | some (.list imgs) => .ok imgs
      | _ => get_filenames rest
    | .str s =>
      if (s.splitOn "images").length > 1 then
        .error "string indices must be integers"
      else get_filenames rest
    | .list l =>
      if l.contains (.str "images") then
        .error "list indices must be integers or slices, not str"
      else get_filenames rest
    | _ => .error "argument of type is not iterable"

/-- One workflow node matches the patch target when
`node.get("class_type", "").lower().startswith("loadimage")`
(rp_handler.py line 100).  Only meaningful on dict nodes with a string (or
absent) `class_type`; the embedded patch loop raises on other shapes. -/
def nodeIsLoadImage : JValue → Bool
  | .obj kvs =>
    match lookup kvs "class_type" with
    | some (.str s) => pyStartsWith (pyLower s) "loadimage"
    | _ => false
  | _ => false

/-- Models `node["inputs"]["image"] = image_path` (rp_handler.py line 101) on
the matched node's fields: raises `KeyError`/`TypeError` where Python would. -/
def setNodeInputImage (kvs : List (String × JValue)) (path : String) :
    Except String (List (String × JValue)) :=
  match lookup kvs "inputs" with
  | some (.obj ikvs) => .ok (setKey kvs "inputs" (.obj (setKey ikvs "image" (.str path))))
  | some _ => .error "object does not support item assignment"
  | none => .error (keyErrorStr "inputs")

/-- Models the init-image patch loop (rp_handler.py lines 99-103): walk
`workflow.items()` in stored order, patch the first node whose `class_type`
lower-cased starts with `loadimage`, then `break`; later nodes are not
visited.  Raises `AttributeError` where Python would (`.get` on a non-dict
node, `.lower()` on a non-string `class_type`). -/
def patch_workflow (path : String) : List (String × JValue) →
    Except String (List (String × JValue))
  | [] => .ok []
  | (nid, .obj kvs) :: rest =>
    match lookup kvs "class_type" with
    | some (.str s) =>
      if pyStartsWith (pyLower s) "loadimage" then
        (setNodeInputImage kvs path).map (fun kvs2 => (nid, .obj kvs2) :: rest)
      else (patch_workflow path rest).map (fun r => (nid, .obj kvs) :: r)
    | none => (patch_workflow path rest).map (fun r => (nid, .obj kvs) :: r)
    | some _ => .error "object has no attribute lower"
  | (_, _) :: _ => .error "object has no attribute get"

/-- Models the output-reading loop (rp_handler.py lines 135-140): for each
reported filename record, read
`f"\x7bVOLUME_MOUNT_PATH\x7d/ComfyUI/output/\x7bfilename\x7d"` from the
volume (modelled by `files : String → Option (List Nat)`) and base64-encode
its bytes; a missing file raises `FileNotFoundError`. -/
def read_and_encode (files : String → Option (List Nat)) :
    List JValue → Except String (List JValue)
  | [] => .ok []
  | fv :: rest =>
    match fv with
    | .obj fkvs =>
      match lookup fkvs "filename" with
      | none => .error (keyErrorStr "filename")
      | some nv =>
        let path := VOLUME_MOUNT_PATH ++ "/ComfyUI/output/" ++ pyStr nv
        match files path with
        | none => .error ("[Errno 2] No such file or directory: \x27" ++ path ++ "\x27")
        | some bytes =>
          (read_and_encode files rest).map (fun r => JValue.str (b64encode bytes) :: r)
    | .str _ => .error "string indices must be integers"
    | .list _ => .error "list indices must be integers or slices, not str"
    | _ => .error "object is not subscriptable"

/-! ### The engine boundary and the invocation handler -/

/-- The rendering engine as seen through the HTTP boundary: the decoded JSON
response to `POST /prompt`, the decoded JSON response to the n-th
`GET /history/<prompt_id>` request of this invocation, and the contents of
the shared output volume. -/
structure Engine where
  promptStatus : Nat
  promptBody : JValue
  history : Nat → Nat × JValue
  files : String → Option (List Nat)

/-- Outcome of the polling loop once it stops iterating: the populated
history body, or an exception raised inside the loop. -/
inductive PollOutcome where
  | ok : JValue → PollOutcome
  | exn : String → PollOutcome
deriving DecidableEq

/-- Models the history-poll loop (rp_handler.py lines 122-127):

    while True:
        r = send_get_request(f'history/{prompt_id}')
        resp_json = r.json()
        if r.status_code == 200 and len(resp_json):
            break
        time.sleep(0.2)

`fuel` bounds how many iterations we unfold (the source loop is unbounded);
`i` is the index of the next history request.  Returns
`(requests made, sleeps of 0.2s performed, outcome)`, where the outcome is
`none` when the loop is still running after `fuel` iterations.  Note the
short-circuit of `and`: `len` is only evaluated on a 200 response, and an
unsized 200 body raises `TypeError` before the sleep. -/
def pollLoop (eng : Engine) : Nat → Nat → Nat × Nat × Option PollOutcome
  | 0, _ => (0, 0, none)
  | fuel + 1, i =>
    let st := (eng.history i).1
    let body := (eng.history i).2
    if st == 200 then
      match pyLen body with
      | .error e => (1, 0, some (.exn e))
      | .ok n =>
        if n > 0 then (1, 0, some (.ok body))
        else
          match pollLoop eng fuel (i + 1) with
          | (c, s, o) => (c + 1, s + 1, o)
    else
      match pollLoop eng fuel (i + 1) with
      | (c, s, o) => (c + 1, s + 1, o)

/-- What one invocation of the handler produced: its return value (`none`
models the poll loop still running when the fuel bound is reached), together
with the observable side effects at the boundaries — the init-image file
path opened for writing, the JSON body POSTed to `/prompt`, and how many
history requests and 0.2s sleeps were made. -/
structure HOut where
  result : Option JValue
  wrotePath : Option String
  submitted : Option JValue
  historyCalls : Nat
  sleeps : Nat
deriving DecidableEq

/-- The handler's uniform exception payload: `return {'error': str(e)}`
(rp_handler.py line 146). -/
def mkError (e : String) : JValue := .obj [("error", .str e)]

/-- Steps of the handler from the history body onward (rp_handler.py lines
129-142): index the history body with the job identifier, require a truthy
`outputs`, extract filenames and read-and-encode each file.  Exceptions
carry the Python `str` of what would be raised. -/
def afterPoll (histBody : JValue) (prompt_id : JValue)
    (files : String → Option (List Nat)) : Except String JValue :=
  match histBody with
  | .obj h =>
    match prompt_id with
    | .str pid =>
      match lookup h pid with
      | none => .error (keyErrorStr pid)
      | some entry =>
        match entry with
        | .obj ekvs =>
          match lookup ekvs "outputs" with
          | none => .error (keyErrorStr "outputs")
          | some outs =>
            if !truthy outs then
              .error "No output found, check model and workflow validity"
            else
              match outs with
              | .obj om =>
                match get_filenames om with
                | .error e => .error e
                | .ok filenames =>
                  match read_and_encode files filenames with
                  | .error e => .error e
                  | .ok images => .ok (.obj [("images", .list images)])
              | _ => .error "object has no attribute items"
        | _ => .error "object is not subscriptable"
    | _ => .error (keyErrorStr (pyStr prompt_id))
  | _ => .error "object is not subscriptable"

/-- Steps of the handler from submission onward (rp_handler.py lines
106-142): POST the workflow to `/prompt`; on a non-200 status return the
decoded engine body itself (`return resp_json`, line 113); otherwise require
a truthy `prompt_id` and poll history, then run `afterPoll`, converting any
exception into the `mkError` payload as the top-level `except` does. -/
def submitPhase (workflow : JValue) (eng : Engine) (fuel : Nat)
    (wrote : Option String) : HOut :=
  let submitted := JValue.obj [("prompt", workflow)]
  if eng.promptStatus != 200 then
    ⟨some eng.promptBody, wrote, some submitted, 0, 0⟩
  else
    match eng.promptBody with
    | .obj respObj =>
      let prompt_id := (lookup respObj "prompt_id").getD .null
      if !truthy prompt_id then
        ⟨some (mkError "No prompt_id returned by ComfyUI"), wrote, some submitted, 0, 0⟩
      else
        match pollLoop eng fuel 0 with
        | (c, s, none) => ⟨none, wrote, some submitted, c, s⟩
        | (c, s, some (.exn e)) => ⟨some (mkError e), wrote, some submitted, c, s⟩
        | (c, s, some (.ok histBody)) =>
          match afterPoll histBody prompt_id eng.files with
          | .error e => ⟨some (mkError e), wrote, some submitted, c, s⟩
          | .ok result => ⟨some result, wrote, some submitted, c, s⟩
    | _ =>
      ⟨some (mkError "object has no attribute get"), wrote, some submitted, 0, 0⟩

/-- Steps of the handler on the validated payload (rp_handler.py lines
88-142): require the `workflow` key; if `init_image` is present and a
string, write the decoded image to `init_image_path` (the file is opened
before the decode runs, so the path is recorded even when decoding fails)
and patch the first LoadImage node; then submit. -/
def handlerPayload (payload : List (String × JValue)) (eng : Engine)
    (fuel : Nat) : HOut :=
  if !hasKey payload "workflow" then
    ⟨some (mkError "Missing workflow in payload"), none, none, 0, 0⟩
  else
    let workflow := (lookup payload "workflow").getD .null
    match lookup payload "init_image" with
    | some (.str s) =>
      match b64decode s with
      | .error e => ⟨some (mkError e), some init_image_path, none, 0, 0⟩
      | .ok _ =>
        match workflow with
        | .obj wf =>
          match patch_workflow init_image_path wf with
          | .error e => ⟨some (mkError e), some init_image_path, none, 0, 0⟩
          | .ok wf2 => submitPhase (.obj wf2) eng fuel (some init_image_path)
        | _ =>
          ⟨some (mkError "object has no attribute items"), some init_image_path, none, 0, 0⟩
    | _ => submitPhase workflow eng fuel none

/-- Models `handler(event)` (rp_handler.py lines 79-146) from the validator's
result onward (the schema validator is an external collaborator; its result
dict is this function's input).  `return {'error': validated_input['errors']}`
when the validator reported errors; `KeyError` when `validated_input` is
absent; otherwise run the pipeline on the payload.  Every raised exception
is converted by the top-level `except` into `mkError (str e)`, which the
branch functions above already perform. -/
def handler (validated_input : List (String × JValue)) (eng : Engine)
    (fuel : Nat) : HOut :=
  if hasKey validated_input "errors" then
    ⟨some (.obj [("error", (lookup validated_input "errors").getD .null)]),
      none, none, 0, 0⟩
  else
    match lookup validated_input "validated_input" with
    | none => ⟨some (mkError (keyErrorStr "validated_input")), none, none, 0, 0⟩
    | some (.obj payload) => handlerPayload payload eng fuel
    | some _ => ⟨some (mkError "argument of type is not iterable"), none, none, 0, 0⟩

/-! ### Spec-side definitions used to state the claims -/

/-- The uniform result shape the spec's failure contract describes: a
success payload `\x7bimages: [...]\x7d` or an error payload
`\x7berror: message\x7d`, and nothing else. -/
def wellFormedResult : JValue → Bool
  | .obj [("images", .list _)] => true
  | .obj [("error", _)] => true
  | _ => false

/-- The `images` list carried by one node-output entry, when the entry is a
dict with an `images` key bound to a list. -/
def entryImages : JValue → Option (List JValue)
  | .obj kvs =>
    match lookup kvs "images" with
    | some (.list l) => some l
    | _ => none
  | _ => none

/-- Modelled from the spec's words (§4.5, claim C3): scans the outputs
mapping in stored order and returns the `images` list of the first
node-output entry that contains a non-empty `images` sequence; returns an
empty sequence if none is found.  Stated for refinement comparison with
`get_filenames`. -/
def extractFilenames_spec (output : List (String × JValue)) : List JValue :=
  match output.find? (fun p => ((entryImages p.2).getD []).length > 0) with
  | some p => (entryImages p.2).getD []
  | none => []

/-- A node the patch loop can inspect without raising: a dict whose
`class_type`, if present, is a string. -/
def nodeTypeOk : JValue → Bool
  | .obj kvs =>
    match lookup kvs "class_type" with
    | some (.str _) => true
    | none => true
    | some _ => false
  | _ => false

/-- A node whose `inputs` field is present and a dict, as the data model
prescribes. -/
def nodeHasInputs : JValue → Bool
  | .obj kvs =>
    match lookup kvs "inputs" with
    | some (.obj _) => true
    | _ => false
  | _ => false

/-- A workflow node of the shape the data model prescribes. -/
def nodeWellFormed (v : JValue) : Bool := nodeTypeOk v && nodeHasInputs v

/-! ### Concrete fixtures used by counterexamples and witnesses -/

/-- Witness for C8 at a concrete payload and engine. -/
def engW : Engine :=
  ⟨200, .obj [("prompt_id", .str "abc")], fun _ => (200, .obj []), fun _ => none⟩

/-- Engine and input for the non-200 submission counterexamples: the engine
rejects the prompt with status 500 and body `\x7bdetail: "bad node"\x7d`. -/
def engC2 : Engine :=
  ⟨500, .obj [("detail", .str "bad node")], fun _ => (200, .obj []), fun _ => none⟩

/-- A validated input carrying a minimal one-node workflow. -/
def viC2 : List (String × JValue) :=
  [("validated_input", .obj [("workflow",
    .obj [("1", .obj [("class_type", .str "KSampler"), ("inputs", .obj [])])])])]

/-- Witness for C9: a 200 submission response with an empty `prompt_id`. -/
def engC9 : Engine :=
  ⟨200, .obj [("prompt_id", .str "")], fun _ => (200, .obj []), fun _ => none⟩

/-- Engine where history populates with an entry that lacks `outputs`. -/
def engC5 : Engine :=
  ⟨200, .obj [("prompt_id", .str "abc")],
    fun _ => (200, .obj [("abc", .obj [])]), fun _ => none⟩

/-- Engine where history populates with an empty `outputs` dict. -/
def engC5b : Engine :=
  ⟨200, .obj [("prompt_id", .str "abc")],
    fun _ => (200, .obj [("abc", .obj [("outputs", .obj [])])]), fun _ => none⟩

/-- Engine for the C6 witness: two empty history bodies, then a populated
one. -/
def engC6 : Engine :=
  ⟨200, .obj [("prompt_id", .str "abc")],
    fun k => if k < 2 then (200, .obj [])
      else (200, .obj [("abc", .obj [("outputs", .obj [])])]),
    fun _ => none⟩

/-- Outputs mapping on which the stated C3 disagrees with the code: the
first entry has an empty `images` list, the second a non-empty one. -/
def c3out : List (String × JValue) :=
  [("7", .obj [("images", .list [])]),
   ("9", .obj [("images", .list [.str "x"])])]

/-- Workflow for the C4 witness: a sampler node followed by two
image-loading nodes (`LoadImage`, then `LoadImageMask`), so only the first
of the two may be patched. -/
def wf4 : List (String × JValue) :=
  [("1", .obj [("class_type", .str "KSampler"), ("inputs", .obj [])]),
   ("2", .obj [("class_type", .str "LoadImage"),
     ("inputs", .obj [("image", .str "old.png")])]),
   ("3", .obj [("class_type", .str "LoadImageMask"), ("inputs", .obj [])])]

/-- Payload for the C4 witness: `wf4` plus the base64 init image "aGk=". -/
def payload4 : List (String × JValue) :=
  [("workflow", .obj wf4), ("init_image", .str "aGk=")]

/-- Workflow with no image-loading node, for the C7 witness. -/
def wfK : List (String × JValue) :=
  [("1", .obj [("class_type", .str "KSampler"), ("inputs", .obj [])])]

/-! ### Helper lemmas -/

namespace JValue

theorem lookup_eq_none_of_hasKey_false {kvs : List (String × JValue)}
    {k : String} (h : hasKey kvs k = false) : lookup kvs k = none := by
  induction kvs with
  | nil => rfl
  | cons p rest ih =>
    simp only [hasKey, List.any_cons, Bool.or_eq_false_iff] at h
    simp only [lookup, List.find?_cons, h.1]
    exact ih (by simp [hasKey, h.2])

theorem hasKey_eq_true_of_lookup_some {kvs : List (String × JValue)}
    {k : String} {v : JValue} (h : lookup kvs k = some v) :
    hasKey kvs k = true := by
  by_contra hc
  rw [lookup_eq_none_of_hasKey_false (Bool.eq_false_iff.mpr hc)] at h
  exact Option.noConfusion h

end JValue

/-- In every branch, `submitPhase` records the given written path and the
submitted body `\x7bprompt: workflow\x7d`. -/
theorem submitPhase_wrote_submitted (w : JValue) (eng : Engine) (fuel : Nat)
    (wrote : Option String) :
    (submitPhase w eng fuel wrote).wrotePath = wrote ∧
    (submitPhase w eng fuel wrote).submitted = some (.obj [("prompt", w)]) := by
  constructor <;>
    (unfold submitPhase; dsimp only; repeat' split) <;> rfl

/-! ### Claim theorems -/

/-- C8: for every input whose validated payload lacks the `workflow` key, the
handler returns `\x7berror: "Missing workflow in payload"\x7d` and performs
no HTTP call to the rendering engine (nothing is submitted and no history
request is made). -/
theorem C8_missing_workflow (payload : List (String × JValue)) (eng : Engine)
    (fuel : Nat) (h : hasKey payload "workflow" = false) :
    handler [("validated_input", .obj payload)] eng fuel =
      ⟨some (mkError "Missing workflow in payload"), none, none, 0, 0⟩ := by
  unfold handler
  simp only [hasKey, lookup, List.any_cons, List.any_nil, List.find?_cons,
    List.find?_nil]
  norm_num
  unfold handlerPayload
  simp [h]

theorem C8_missing_workflow_witness :
    hasKey [("seed", JValue.num 3)] "workflow" = false ∧
    handler [("validated_input", .obj [("seed", JValue.num 3)])] engW 1 =
      ⟨some (mkError "Missing workflow in payload"), none, none, 0, 0⟩ :=
  ⟨by decide, C8_missing_workflow [("seed", JValue.num 3)] engW 1 (by decide)⟩

/-- When the payload has a workflow and no `init_image` key, the handler
reduces to the submission phase on the unpatched workflow with no init file
written. -/
theorem handler_reduce (payload : List (String × JValue)) (eng : Engine)
    (fuel : Nat) (hwk : hasKey payload "workflow" = true)
    (hinit : lookup payload "init_image" = none) :
    handler [("validated_input", .obj payload)] eng fuel =
      submitPhase ((lookup payload "workflow").getD .null) eng fuel none := by
  unfold handler
  simp only [hasKey, List.any_cons, List.any_nil, lookup, List.find?_cons,
    List.find?_nil]
  norm_num
  unfold handlerPayload
  simp [hwk, hinit]
  rfl

/-- C2 as stated is false: when the engine answers 500 with body
`\x7bdetail: "bad node"\x7d`, the handler returns that body itself
(`return resp_json`, rp_handler.py line 113), which carries no `error` key
at all. -/
theorem C2_counterexample :
    (handler viC2 engC2 1).result = some (.obj [("detail", .str "bad node")]) ∧
    hasKey [("detail", JValue.str "bad node")] "error" = false := by
  decide

/-- C2 (amended): for every submission to which the engine responds with a
non-200 status, the handler returns the engine's decoded error body itself,
unchanged — so the engine's own diagnostics (e.g. `detail: "bad node"`) are
visible, but the payload is not wrapped in an `\x7berror: ...\x7d` envelope
and no history request is made. -/
theorem C2_non200_raw_body (payload : List (String × JValue)) (eng : Engine)
    (fuel : Nat) (hwk : hasKey payload "workflow" = true)
    (hinit : lookup payload "init_image" = none)
    (hst : eng.promptStatus ≠ 200) :
    handler [("validated_input", .obj payload)] eng fuel =
      ⟨some eng.promptBody, none,
        some (.obj [("prompt", (lookup payload "workflow").getD .null)]), 0, 0⟩ := by
  rw [handler_reduce payload eng fuel hwk hinit]
  unfold submitPhase
  simp [bne_iff_ne, hst]

/-- Witness for C2 (amended) at a concrete payload and engine. -/
theorem C2_non200_raw_body_witness :
    handler [("validated_input", .obj [("workflow", .obj [])])] engC2 1 =
      ⟨some engC2.promptBody, none,
        some (.obj [("prompt",
          (lookup [("workflow", JValue.obj [])] "workflow").getD .null)]), 0, 0⟩ :=
  C2_non200_raw_body [("workflow", .obj [])] engC2 1 (by decide) (by decide)
    (by decide)

/-- C9: if submission returns a 200 response whose body has no `prompt_id`
(or a falsy one), the handler fails with
`\x7berror: "No prompt_id returned by ComfyUI"\x7d` and never enters the
polling loop (zero history requests). -/
theorem C9_no_prompt_id (payload : List (String × JValue)) (eng : Engine)
    (fuel : Nat) (pb : List (String × JValue))
    (hwk : hasKey payload "workflow" = true)
    (hinit : lookup payload "init_image" = none)
    (hst : eng.promptStatus = 200)
    (hpb : eng.promptBody = .obj pb)
    (hpid : ∀ v, lookup pb "prompt_id" = some v → truthy v = false) :
    handler [("validated_input", .obj payload)] eng fuel =
      ⟨some (mkError "No prompt_id returned by ComfyUI"), none,
        some (.obj [("prompt", (lookup payload "workflow").getD .null)]), 0, 0⟩ := by
  rw [handler_reduce payload eng fuel hwk hinit]
  unfold submitPhase
  simp only [hst, hpb, bne_self_eq_false, Bool.false_eq_true, if_false]
  cases hl : lookup pb "prompt_id" with
  | none => simp [truthy]
  | some v => simp [hpid v hl]

theorem C9_no_prompt_id_witness :
    handler [("validated_input", .obj [("workflow", .obj [])])] engC9 4 =
      ⟨some (mkError "No prompt_id returned by ComfyUI"), none,
        some (.obj [("prompt",
          (lookup [("workflow", JValue.obj [])] "workflow").getD .null)]), 0, 0⟩ :=
  C9_no_prompt_id [("workflow", .obj [])] engC9 4 [("prompt_id", .str "")]
    (by decide) (by decide) (by decide) (by decide)
    (by intro v hv; cases hv; rfl)

/-- C10: if the payload contains an `init_image` whose value is not a
string, the handler silently ignores it: no init file is opened, no node is
patched, and the pipeline proceeds exactly as the submission phase on the
unchanged workflow (so no error is raised for the non-string value at this
stage). -/
theorem C10_non_string_init_image (payload : List (String × JValue))
    (eng : Engine) (fuel : Nat) (v : JValue)
    (hwk : hasKey payload "workflow" = true)
    (hin : lookup payload "init_image" = some v)
    (hns : isStr v = false) :
    handler [("validated_input", .obj payload)] eng fuel =
      submitPhase ((lookup payload "workflow").getD .null) eng fuel none ∧
    (handler [("validated_input", .obj payload)] eng fuel).wrotePath = none ∧
    (handler [("validated_input", .obj payload)] eng fuel).submitted =
      some (.obj [("prompt", (lookup payload "workflow").getD .null)]) := by
  have hmain : handler [("validated_input", .obj payload)] eng fuel =
      submitPhase ((lookup payload "workflow").getD .null) eng fuel none := by
    unfold handler
    simp only [hasKey, List.any_cons, List.any_nil, lookup, List.find?_cons,
      List.find?_nil]
    norm_num
    unfold handlerPayload
    simp only [hwk, hin, Bool.not_true, Bool.false_eq_true, if_false]
    cases v with
    | str s => simp [isStr] at hns
    | num n => rfl
    | bool b => rfl
    | null => rfl
    | list l => rfl
    | obj kvs => rfl
  refine ⟨hmain, ?_, ?_⟩
  · rw [hmain]
    exact (submitPhase_wrote_submitted _ eng fuel none).1
  · rw [hmain]
    exact (submitPhase_wrote_submitted _ eng fuel none).2

/-- Witness for C10: an `init_image` bound to the number 5 is ignored. -/
theorem C10_non_string_init_image_witness :
    handler [("validated_input", .obj [("workflow", .obj []),
        ("init_image", .num 5)])] engW 2 =
      submitPhase ((lookup [("workflow", JValue.obj []),
        ("init_image", JValue.num 5)] "workflow").getD .null) engW 2 none ∧
    (handler [("validated_input", .obj [("workflow", .obj []),
        ("init_image", .num 5)])] engW 2).wrotePath = none ∧
    (handler [("validated_input", .obj [("workflow", .obj []),
        ("init_image", .num 5)])] engW 2).submitted =
      some (.obj [("prompt", (lookup [("workflow", JValue.obj []),
        ("init_image", JValue.num 5)] "workflow").getD .null)]) :=
  C10_non_string_init_image [("workflow", .obj []), ("init_image", .num 5)]
    engW 2 (.num 5) (by decide) (by decide) (by decide)

/-- C5 as stated is false for an absent `outputs` key: the lookup
`resp_json[prompt_id]['outputs']` (rp_handler.py line 129) raises `KeyError`
first, so the handler returns `\x7berror: "'outputs'"\x7d` rather than the
"No output found" message. -/
theorem C5_counterexample :
    (handler viC2 engC5 1).result = some (mkError (keyErrorStr "outputs")) ∧
    mkError (keyErrorStr "outputs") ≠
      mkError "No output found, check model and workflow validity" := by
  decide

/-- C5 (amended): after the polling loop, if the history entry for the job
identifier carries an `outputs` key whose value is empty (falsy), the
handler returns
`\x7berror: "No output found, check model and workflow validity"\x7d`;
if the `outputs` key is absent, the handler instead returns the `KeyError`
payload `\x7berror: "'outputs'"\x7d`. -/
theorem C5_no_output (payload : List (String × JValue)) (eng : Engine)
    (fuel : Nat) (pb : List (String × JValue)) (pid : String)
    (entry : List (String × JValue))
    (hwk : hasKey payload "workflow" = true)
    (hinit : lookup payload "init_image" = none)
    (hst : eng.promptStatus = 200)
    (hpb : eng.promptBody = .obj pb)
    (hlk : lookup pb "prompt_id" = some (.str pid))
    (hpid : pid ≠ "")
    (hh : eng.history 0 = (200, .obj [(pid, .obj entry)])) :
    (∀ outs, lookup entry "outputs" = some outs → truthy outs = false →
      (handler [("validated_input", .obj payload)] eng (fuel + 1)).result =
        some (mkError "No output found, check model and workflow validity")) ∧
    (lookup entry "outputs" = none →
      (handler [("validated_input", .obj payload)] eng (fuel + 1)).result =
        some (mkError (keyErrorStr "outputs"))) := by
  rw [handler_reduce payload eng (fuel + 1) hwk hinit]
  unfold submitPhase
  simp only [hst, hpb, bne_self_eq_false, Bool.false_eq_true, if_false, hlk]
  have htr : truthy ((some (JValue.str pid)).getD .null) = true := by
    simp [truthy, hpid]
  rw [htr]
  simp only [Bool.not_true, Bool.false_eq_true, if_false]
  have hpoll : pollLoop eng (fuel + 1) 0 =
      (1, 0, some (.ok (.obj [(pid, .obj entry)]))) := by
    unfold pollLoop
    rw [hh]
    simp [pyLen]
  rw [hpoll]
  constructor
  · intro outs ho hf
    simp only [lookup] at ho
    simp [afterPoll, lookup, List.find?_cons, ho, hf]
  · intro ho
    simp only [lookup] at ho
    simp [afterPoll, lookup, List.find?_cons, ho]

/-- Witness for C5 (amended): empty `outputs` gives the "No output found"
error, absent `outputs` gives the `KeyError` payload. -/
theorem C5_no_output_witness :
    (handler [("validated_input", .obj [("workflow", .obj [])])] engC5b
        (0 + 1)).result =
      some (mkError "No output found, check model and workflow validity") ∧
    (handler [("validated_input", .obj [("workflow", .obj [])])] engC5
        (0 + 1)).result =
      some (mkError (keyErrorStr "outputs")) :=
  ⟨(C5_no_output [("workflow", .obj [])] engC5b 0 [("prompt_id", .str "abc")]
      "abc" [("outputs", .obj [])] (by decide) (by decide) (by decide)
      (by decide) (by decide) (by decide) (by decide)).1 (.obj [])
      (by decide) (by decide),
   (C5_no_output [("workflow", .obj [])] engC5 0 [("prompt_id", .str "abc")]
      "abc" [] (by decide) (by decide) (by decide) (by decide) (by decide)
      (by decide) (by decide)).2 (by decide)⟩

/-- If the engine keeps answering without a populated body (for a 200
response the decoded body has length 0), the polling loop makes one request
and one 0.2s sleep per iteration and is still running when the fuel bound
runs out. -/
theorem pollLoop_stuck (eng : Engine) : ∀ (fuel i : Nat),
    (∀ k < fuel, (eng.history (i + k)).1 = 200 →
      pyLen (eng.history (i + k)).2 = Except.ok 0) →
    pollLoop eng fuel i = (fuel, fuel, none) := by
  intro fuel
  induction fuel with
  | zero => intro i _; rfl
  | succ f ih =>
    intro i h
    have hrec : pollLoop eng f (i + 1) = (f, f, none) :=
      ih (i + 1) (fun k hk => by
        have := h (k + 1) (by omega)
        simpa [Nat.add_assoc, Nat.add_comm 1 k] using this)
    unfold pollLoop
    cases hst : (eng.history i).1 == 200 with
    | false => simp [hst, hrec]
    | true =>
      have h0 := h 0 (by omega) (by simpa using (beq_iff_eq.mp hst))
      simp only [Nat.add_zero] at h0
      simp [hst, h0, hrec]

/-- If the first `N` history responses are unpopulated (any non-200 status,
or a 200 status with an empty decoded body) and the response at index `N` is
a 200 with a non-empty decoded body, the polling loop stops at that
response, having made `N + 1` requests and `N` sleeps. -/
theorem pollLoop_run (eng : Engine) : ∀ (N i : Nat),
    (∀ k < N, (eng.history (i + k)).1 = 200 →
      pyLen (eng.history (i + k)).2 = Except.ok 0) →
    (eng.history (i + N)).1 = 200 →
    (∃ n, pyLen (eng.history (i + N)).2 = Except.ok n ∧ 0 < n) →
    ∀ fuel, N < fuel →
      pollLoop eng fuel i = (N + 1, N, some (.ok (eng.history (i + N)).2)) := by
  intro N
  induction N with
  | zero =>
    intro i hpre hst hpop fuel hf
    obtain ⟨n, hn, hnpos⟩ := hpop
    obtain ⟨f, rfl⟩ : ∃ f, fuel = f + 1 := ⟨fuel - 1, by omega⟩
    unfold pollLoop
    simp only [Nat.add_zero] at hst hn
    simp [hst, hn, hnpos]
  | succ N ih =>
    intro i hpre hst hpop fuel hf
    obtain ⟨f, rfl⟩ : ∃ f, fuel = f + 1 := ⟨fuel - 1, by omega⟩
    have hidx : i + 1 + N = i + (N + 1) := by omega
    have hrec : pollLoop eng f (i + 1) =
        (N + 1, N, some (.ok (eng.history (i + (N + 1))).2)) := by
      rw [← hidx]
      apply ih (i + 1) (fun k hk h2 => ?_) (by rw [hidx]; exact hst)
        (by rw [hidx]; exact hpop) f (by omega)
      have hkk : i + 1 + k = i + (k + 1) := by omega
      rw [hkk] at h2 ⊢
      exact hpre (k + 1) (by omega) h2
    unfold pollLoop
    cases hsb : (eng.history i).1 == 200 with
    | false => simp [hsb, hrec]
    | true =>
      have h0 := hpre 0 (by omega) (by simpa using (beq_iff_eq.mp hsb))
      simp only [Nat.add_zero] at h0
      simp [hsb, h0, hrec]

/-- C6: the history-poll loop stops exactly when a response has status 200
and a non-empty decoded body.  If the engine returns unpopulated responses
`N` times before populating, the loop makes exactly `N + 1` history
requests with `N` sleeps of 0.2 seconds between consecutive iterations, and
while every response stays unpopulated the loop is still running after any
number of iterations (here: after any fuel bound up to `N`). -/
theorem C6_poll_terminates (eng : Engine) (N : Nat)
    (hpre : ∀ k < N, (eng.history k).1 = 200 →
      pyLen (eng.history k).2 = Except.ok 0)
    (hst : (eng.history N).1 = 200)
    (hpop : ∃ n, pyLen (eng.history N).2 = Except.ok n ∧ 0 < n) :
    (∀ fuel, N < fuel →
      pollLoop eng fuel 0 = (N + 1, N, some (.ok (eng.history N).2))) ∧
    (∀ fuel ≤ N, pollLoop eng fuel 0 = (fuel, fuel, none)) := by
  constructor
  · intro fuel hf
    have h := pollLoop_run eng N 0 (fun k hk h2 => by
        simpa using hpre k hk (by simpa using h2))
      (by simpa using hst) (by simpa using hpop) fuel hf
    simpa using h
  · intro fuel hf
    exact pollLoop_stuck eng fuel 0 (fun k hk h2 => by
      simpa using hpre k (by omega) (by simpa using h2))

/-- Witness for C6 at `N = 2`: three requests and two sleeps when the third
response populates, and no termination with fuel for only the empty
responses. -/
theorem C6_poll_terminates_witness :
    pollLoop engC6 3 0 = (3, 2, some (.ok (engC6.history 2).2)) ∧
    pollLoop engC6 2 0 = (2, 2, none) := by
  have h := C6_poll_terminates engC6 2 (by decide) (by decide)
    ⟨1, by decide, by decide⟩
  exact ⟨h.1 3 (by norm_num), h.2 2 (le_refl 2)⟩

/-- C3 as stated is false: `get_filenames` checks only
`isinstance(value['images'], list)` (rp_handler.py line 60), never
non-emptiness, so on `c3out` it returns the first (empty) `images` list
instead of the first non-empty one that the spec's words describe. -/
theorem C3_counterexample :
    get_filenames c3out ≠ Except.ok (extractFilenames_spec c3out) := by
  decide

/-- C3 (amended): for every outputs mapping whose node-output entries are
dicts, `get_filenames` returns the `images` list of the first entry that
binds `images` to a list — empty or not — and the empty sequence when no
entry binds `images` to a list. -/
theorem C3_first_images_list (output : List (String × JValue))
    (h : output.all (fun p => isObj p.2) = true) :
    get_filenames output =
      .ok ((output.findSome? (fun p => entryImages p.2)).getD []) := by
  induction output with
  | nil => rfl
  | cons p rest ih =>
    obtain ⟨k, v⟩ := p
    simp only [List.all_cons, Bool.and_eq_true] at h
    cases v with
    | obj kvs =>
      rw [List.findSome?_cons]
      cases hl : lookup kvs "images" with
      | none =>
        have he : entryImages (JValue.obj kvs) = none := by
          simp [entryImages, hl]
        rw [he]
        simpa [get_filenames, hl] using ih h.2
      | some w =>
        cases w with
        | list l =>
          have he : entryImages (JValue.obj kvs) = some l := by
            simp [entryImages, hl]
          rw [he]
          simp [get_filenames, hl]
        | str s =>
          have he : entryImages (JValue.obj kvs) = none := by
            simp [entryImages, hl]
          rw [he]
          simpa [get_filenames, hl] using ih h.2
        | num n =>
          have he : entryImages (JValue.obj kvs) = none := by
            simp [entryImages, hl]
          rw [he]
          simpa [get_filenames, hl] using ih h.2
        | bool b =>
          have he : entryImages (JValue.obj kvs) = none := by
            simp [entryImages, hl]
          rw [he]
          simpa [get_filenames, hl] using ih h.2
        | null =>
          have he : entryImages (JValue.obj kvs) = none := by
            simp [entryImages, hl]
          rw [he]
          simpa [get_filenames, hl] using ih h.2
        | obj o =>
          have he : entryImages (JValue.obj kvs) = none := by
            simp [entryImages, hl]
          rw [he]
          simpa [get_filenames, hl] using ih h.2
    | str s => simp [isObj] at h
    | num n => simp [isObj] at h
    | bool b => simp [isObj] at h
    | null => simp [isObj] at h
    | list l => simp [isObj] at h

/-- Witness for C3 (amended) on `c3out`: the first `images` list is the
empty one. -/
theorem C3_first_images_list_witness :
    (c3out.all (fun p => isObj p.2) = true) ∧
    get_filenames c3out =
      .ok ((c3out.findSome? (fun p => entryImages p.2)).getD []) :=
  ⟨by decide, C3_first_images_list c3out (by decide)⟩

/-- On a workflow of well-formed nodes with at least one LoadImage-matching
node, the patch loop rewrites exactly the first matching node — setting its
`inputs.image` to the given path — and leaves every other node unchanged. -/
theorem patch_first (path : String) : ∀ wf : List (String × JValue),
    wf.all (fun p => nodeWellFormed p.2) = true →
    wf.any (fun p => nodeIsLoadImage p.2) = true →
    ∃ pre nid kvs ikvs post,
      wf = pre ++ (nid, JValue.obj kvs) :: post ∧
      pre.all (fun p => !nodeIsLoadImage p.2) = true ∧
      nodeIsLoadImage (.obj kvs) = true ∧
      lookup kvs "inputs" = some (.obj ikvs) ∧
      patch_workflow path wf = .ok (pre ++
        (nid, JValue.obj (setKey kvs "inputs"
          (.obj (setKey ikvs "image" (.str path))))) :: post) := by
  intro wf
  induction wf with
  | nil => intro _ hany; simp at hany
  | cons p rest ih =>
    intro hall hany
    obtain ⟨nid, v⟩ := p
    simp only [List.all_cons, Bool.and_eq_true] at hall
    cases hm : nodeIsLoadImage v with
    | true =>
      cases v with
      | obj kvs =>
        have hti := hall.1
        simp only [nodeWellFormed, Bool.and_eq_true] at hti
        have hinp := hti.2
        cases hli : lookup kvs "inputs" with
        | none => simp [nodeHasInputs, hli] at hinp
        | some w =>
          cases w with
          | obj ikvs =>
            cases hct : lookup kvs "class_type" with
            | none => simp [nodeIsLoadImage, hct] at hm
            | some u =>
              cases u with
              | str s =>
                have hsw : pyStartsWith (pyLower s) "loadimage" = true := by
                  simpa [nodeIsLoadImage, hct] using hm
                refine ⟨[], nid, kvs, ikvs, rest, rfl, rfl, hm, hli, ?_⟩
                simp only [patch_workflow, hct, hsw, setNodeInputImage, hli,
                  if_true]
                rfl
              | num n => simp [nodeIsLoadImage, hct] at hm
              | bool b => simp [nodeIsLoadImage, hct] at hm
              | null => simp [nodeIsLoadImage, hct] at hm
              | list l => simp [nodeIsLoadImage, hct] at hm
              | obj o => simp [nodeIsLoadImage, hct] at hm
          | str s => simp [nodeHasInputs, hli] at hinp
          | num n => simp [nodeHasInputs, hli] at hinp
          | bool b => simp [nodeHasInputs, hli] at hinp
          | null => simp [nodeHasInputs, hli] at hinp
          | list l => simp [nodeHasInputs, hli] at hinp
      | str s => simp [nodeIsLoadImage] at hm
      | num n => simp [nodeIsLoadImage] at hm
      | bool b => simp [nodeIsLoadImage] at hm
      | null => simp [nodeIsLoadImage] at hm
      | list l => simp [nodeIsLoadImage] at hm
    | false =>
      have hany2 : rest.any (fun p => nodeIsLoadImage p.2) = true := by
        simpa [List.any_cons, hm] using hany
      obtain ⟨pre, nid2, kvs2, ikvs2, post, heq, hpre, hm2, hli2, hpatch⟩ :=
        ih hall.2 hany2
      cases v with
      | obj kvs =>
        refine ⟨(nid, .obj kvs) :: pre, nid2, kvs2, ikvs2, post,
          by rw [heq]; rfl, ?_, hm2, hli2, ?_⟩
        · simp [List.all_cons, hm, hpre]
        · have hti := hall.1
          simp only [nodeWellFormed, Bool.and_eq_true] at hti
          have htok := hti.1
          cases hct : lookup kvs "class_type" with
          | none =>
            simp only [patch_workflow, hct, hpatch]
            rfl
          | some u =>
            cases u with
            | str s =>
              have hsw : pyStartsWith (pyLower s) "loadimage" = false := by
                simpa [nodeIsLoadImage, hct] using hm
              simp only [patch_workflow, hct, hsw, Bool.false_eq_true,
                if_false, hpatch]
              rfl
            | num n => simp [nodeTypeOk, hct] at htok
            | bool b => simp [nodeTypeOk, hct] at htok
            | null => simp [nodeTypeOk, hct] at htok
            | list l => simp [nodeTypeOk, hct] at htok
            | obj o => simp [nodeTypeOk, hct] at htok
      | str s => simp [nodeWellFormed, nodeTypeOk] at hall
      | num n => simp [nodeWellFormed, nodeTypeOk] at hall
      | bool b => simp [nodeWellFormed, nodeTypeOk] at hall
      | null => simp [nodeWellFormed, nodeTypeOk] at hall
      | list l => simp [nodeWellFormed, nodeTypeOk] at hall

/-- C4: for every workflow (of data-model-shaped nodes) containing at least
one node whose `class_type`, lower-cased, starts with "loadimage",
supplying a decodable `init_image` writes the init file and submits the
workflow with exactly the first such node's `inputs.image` set to the
written file path — every node before it does not match, and every other
node is carried over unchanged. -/
theorem C4_first_loadimage_patched (payload : List (String × JValue))
    (eng : Engine) (fuel : Nat) (wf : List (String × JValue)) (s : String)
    (hwf : lookup payload "workflow" = some (.obj wf))
    (hin : lookup payload "init_image" = some (.str s))
    (hdec : ∃ bs, b64decode s = Except.ok bs)
    (hall : wf.all (fun p => nodeWellFormed p.2) = true)
    (hany : wf.any (fun p => nodeIsLoadImage p.2) = true) :
    ∃ pre nid kvs ikvs post,
      wf = pre ++ (nid, JValue.obj kvs) :: post ∧
      pre.all (fun p => !nodeIsLoadImage p.2) = true ∧
      nodeIsLoadImage (.obj kvs) = true ∧
      lookup kvs "inputs" = some (.obj ikvs) ∧
      (handler [("validated_input", .obj payload)] eng fuel).wrotePath =
        some init_image_path ∧
      (handler [("validated_input", .obj payload)] eng fuel).submitted =
        some (.obj [("prompt", .obj (pre ++ (nid, JValue.obj (setKey kvs
          "inputs" (.obj (setKey ikvs "image" (.str init_image_path))))) ::
          post))]) := by
  obtain ⟨bs, hbs⟩ := hdec
  obtain ⟨pre, nid, kvs, ikvs, post, heq, hpre, hm, hli, hpatch⟩ :=
    patch_first init_image_path wf hall hany
  have hwkk : hasKey payload "workflow" = true :=
    hasKey_eq_true_of_lookup_some hwf
  have hred : handler [("validated_input", .obj payload)] eng fuel =
      submitPhase (.obj (pre ++ (nid, JValue.obj (setKey kvs "inputs"
        (.obj (setKey ikvs "image" (.str init_image_path))))) :: post))
        eng fuel (some init_image_path) := by
    unfold handler
    simp only [hasKey, List.any_cons, List.any_nil, lookup, List.find?_cons,
      List.find?_nil]
    norm_num
    unfold handlerPayload
    simp only [hwkk, Bool.not_true, Bool.false_eq_true, if_false, hin, hbs,
      hwf, Option.getD_some, hpatch]
    simp
  refine ⟨pre, nid, kvs, ikvs, post, heq, hpre, hm, hli, ?_, ?_⟩
  · rw [hred]
    exact (submitPhase_wrote_submitted _ eng fuel _).1
  · rw [hred]
    exact (submitPhase_wrote_submitted _ eng fuel _).2

/-- Witness for C4 on `wf4`: node "2" is the first match and is the one
patched. -/
theorem C4_first_loadimage_patched_witness :
    ∃ pre nid kvs ikvs post,
      wf4 = pre ++ (nid, JValue.obj kvs) :: post ∧
      pre.all (fun p => !nodeIsLoadImage p.2) = true ∧
      nodeIsLoadImage (.obj kvs) = true ∧
      lookup kvs "inputs" = some (.obj ikvs) ∧
      (handler [("validated_input", .obj payload4)] engW 1).wrotePath =
        some init_image_path ∧
      (handler [("validated_input", .obj payload4)] engW 1).submitted =
        some (.obj [("prompt", .obj (pre ++ (nid, JValue.obj (setKey kvs
          "inputs" (.obj (setKey ikvs "image" (.str init_image_path))))) ::
          post))]) :=
  C4_first_loadimage_patched payload4 engW 1 wf4 "aGk=" (by decide)
    (by decide) ⟨[104, 105], by decide⟩ (by decide) (by decide)

/-- When no node of a type-safe workflow matches the LoadImage test, the
patch loop leaves the workflow exactly as it was. -/
theorem patch_noop (path : String) : ∀ wf : List (String × JValue),
    wf.all (fun p => nodeTypeOk p.2) = true →
    wf.all (fun p => !nodeIsLoadImage p.2) = true →
    patch_workflow path wf = .ok wf := by
  intro wf
  induction wf with
  | nil => intro _ _; rfl
  | cons p rest ih =>
    intro hall hnone
    obtain ⟨nid, v⟩ := p
    simp only [List.all_cons, Bool.and_eq_true] at hall hnone
    cases v with
    | obj kvs =>
      cases hct : lookup kvs "class_type" with
      | none =>
        simp only [patch_workflow, hct, ih hall.2 hnone.2]
        rfl
      | some u =>
        cases u with
        | str s =>
          have hsw : pyStartsWith (pyLower s) "loadimage" = false := by
            have hb := hnone.1
            simpa [nodeIsLoadImage, hct] using hb
          simp only [patch_workflow, hct, hsw, Bool.false_eq_true, if_false,
            ih hall.2 hnone.2]
          rfl
        | num n => simp [nodeTypeOk, hct] at hall
        | bool b => simp [nodeTypeOk, hct] at hall
        | null => simp [nodeTypeOk, hct] at hall
        | list l => simp [nodeTypeOk, hct] at hall
        | obj o => simp [nodeTypeOk, hct] at hall
    | str s => simp [nodeTypeOk] at hall
    | num n => simp [nodeTypeOk] at hall
    | bool b => simp [nodeTypeOk] at hall
    | null => simp [nodeTypeOk] at hall
    | list l => simp [nodeTypeOk] at hall

/-- C7: without an `init_image` the handler submits the input workflow
unchanged; and with a (decodable) `init_image` but no node whose
`class_type` case-insensitively starts with "loadimage", the workflow is
likewise submitted unpatched — the patcher is a no-op on the graph. -/
theorem C7_unpatched_submission (payload : List (String × JValue))
    (eng : Engine) (fuel : Nat)
    (hwk : hasKey payload "workflow" = true) :
    (lookup payload "init_image" = none →
      (handler [("validated_input", .obj payload)] eng fuel).submitted =
        some (.obj [("prompt", (lookup payload "workflow").getD .null)])) ∧
    (∀ s wf, lookup payload "workflow" = some (.obj wf) →
      lookup payload "init_image" = some (.str s) →
      (∃ bs, b64decode s = Except.ok bs) →
      wf.all (fun p => nodeTypeOk p.2) = true →
      wf.all (fun p => !nodeIsLoadImage p.2) = true →
      (handler [("validated_input", .obj payload)] eng fuel).submitted =
        some (.obj [("prompt", .obj wf)])) := by
  constructor
  · intro hinit
    rw [handler_reduce payload eng fuel hwk hinit]
    exact (submitPhase_wrote_submitted _ eng fuel none).2
  · intro s wf hwf hin hdec hton hnone
    obtain ⟨bs, hbs⟩ := hdec
    have hnp := patch_noop init_image_path wf hton hnone
    have hred : handler [("validated_input", .obj payload)] eng fuel =
        submitPhase (.obj wf) eng fuel (some init_image_path) := by
      unfold handler
      simp only [hasKey, List.any_cons, List.any_nil, lookup, List.find?_cons,
        List.find?_nil]
      norm_num
      unfold handlerPayload
      simp only [hwk, Bool.not_true, Bool.false_eq_true, if_false, hin, hbs,
        hwf, Option.getD_some, hnp]
      simp
    rw [hred]
    exact (submitPhase_wrote_submitted _ eng fuel _).2

/-- Witness for C7: submission is unchanged both without `init_image` and
with one that no node can absorb. -/
theorem C7_unpatched_submission_witness :
    ((handler [("validated_input", .obj [("workflow", .obj wfK)])] engW
        1).submitted =
      some (.obj [("prompt",
        (lookup [("workflow", JValue.obj wfK)] "workflow").getD .null)])) ∧
    ((handler [("validated_input", .obj [("workflow", .obj wfK),
        ("init_image", .str "aGk=")])] engW 1).submitted =
      some (.obj [("prompt", .obj wfK)])) :=
  ⟨(C7_unpatched_submission [("workflow", .obj wfK)] engW 1 (by decide)).1
      (by decide),
   (C7_unpatched_submission [("workflow", .obj wfK),
        ("init_image", .str "aGk=")] engW 1 (by decide)).2 "aGk=" wfK
      (by decide) (by decide) ⟨[104, 105], by decide⟩ (by decide) (by decide)⟩

/-- Whatever `afterPoll` successfully returns is a one-key
`\x7bimages: [...]\x7d` payload. -/
theorem afterPoll_ok_shape (histBody pid : JValue)
    (files : String → Option (List Nat)) (v : JValue)
    (h : afterPoll histBody pid files = .ok v) : wellFormedResult v = true := by
  unfold afterPoll at h
  repeat' split at h
  all_goals first
    | (injection h with h2; subst h2; simp [wellFormedResult])
    | (cases h)

/-- Every result value the submission phase can produce is the uniform
shape, except the non-200 branch which returns the engine body itself. -/
theorem submitPhase_result_shape (w : JValue) (eng : Engine) (fuel : Nat)
    (wrote : Option String) (r : JValue)
    (h : (submitPhase w eng fuel wrote).result = some r) :
    wellFormedResult r = true ∨
      (eng.promptStatus ≠ 200 ∧ r = eng.promptBody) := by
  unfold submitPhase at h
  split at h
  · right
    constructor
    · simpa [bne_iff_ne] using ‹(eng.promptStatus != 200) = true›
    · exact (Option.some.inj h).symm
  · split at h
    · dsimp only at h
      split at h
      · left; cases Option.some.inj h; simp [wellFormedResult, mkError]
      · split at h
        · cases h
        · left; cases Option.some.inj h; simp [wellFormedResult, mkError]
        · split at h
          · left; cases Option.some.inj h; simp [wellFormedResult, mkError]
          · left
            cases Option.some.inj h
            exact afterPoll_ok_shape _ _ _ _ ‹_›
    · left; cases Option.some.inj h; simp [wellFormedResult, mkError]

/-- Every result value the payload pipeline can produce is the uniform
shape, except the raw engine body on a non-200 submission. -/
theorem handlerPayload_result_shape (payload : List (String × JValue))
    (eng : Engine) (fuel : Nat) (r : JValue)
    (h : (handlerPayload payload eng fuel).result = some r) :
    wellFormedResult r = true ∨
      (eng.promptStatus ≠ 200 ∧ r = eng.promptBody) := by
  unfold handlerPayload at h
  split at h
  · left; cases Option.some.inj h; simp [wellFormedResult, mkError]
  · split at h
    · split at h
      · left; cases Option.some.inj h; simp [wellFormedResult, mkError]
      · dsimp only at h
        split at h
        · split at h
          · left; cases Option.some.inj h; simp [wellFormedResult, mkError]
          · exact submitPhase_result_shape _ eng fuel _ r h
        · left; cases Option.some.inj h; simp [wellFormedResult, mkError]
    · exact submitPhase_result_shape _ eng fuel _ r h

/-- C1 (amended): the handler never lets an exception propagate, and its
result is always either `\x7bimages: [...]\x7d` or `\x7berror: message\x7d`
— except on the one path where the engine rejects the submission with a
non-200 status, when the engine's decoded error body is returned as-is.
No partial result is ever returned alongside an error. -/
theorem C1_uniform_result (vi : List (String × JValue)) (eng : Engine)
    (fuel : Nat) (r : JValue)
    (h : (handler vi eng fuel).result = some r) :
    wellFormedResult r = true ∨
      (eng.promptStatus ≠ 200 ∧ r = eng.promptBody) := by
  unfold handler at h
  split at h
  · left; cases Option.some.inj h; simp [wellFormedResult, mkError]
  · split at h
    · left; cases Option.some.inj h; simp [wellFormedResult, mkError]
    · exact handlerPayload_result_shape _ eng fuel r h
    · left; cases Option.some.inj h; simp [wellFormedResult, mkError]

/-- C1 as stated is false: on a 500 submission response the handler's
result is the raw engine body, which is neither an `images` nor an `error`
payload. -/
theorem C1_counterexample :
    (handler viC2 engC2 1).result = some (.obj [("detail", .str "bad node")]) ∧
    wellFormedResult (.obj [("detail", .str "bad node")]) = false := by
  decide

/-- Witness for C1 (amended) at a concrete run that ends in an error
payload. -/
theorem C1_uniform_result_witness :
    wellFormedResult (mkError (keyErrorStr "outputs")) = true ∨
      (engC5.promptStatus ≠ 200 ∧
        mkError (keyErrorStr "outputs") = engC5.promptBody) :=
  C1_uniform_result viC2 engC5 1 (mkError (keyErrorStr "outputs"))
    (by decide)
